import Mathlib

/-!
Verification development for the stellargraph demo script
demos/node-classification/cora-example.py.

The script is orchestration glue: it parses command-line flags, loads the
CORA citation dataset from two tab-separated files, splits the node ids
into train, validation and test sets, trains a GraphSAGE classifier via
external libraries, prints an all-node accuracy, and writes two artifact
files whose names encode the hyperparameters.

The definitions below are a shallow embedding of that script.  Pure string
and list computations (file names, column names, the accuracy formula, the
one-hot label encoding) are translated directly from the source.  Calls
into external libraries (sklearn train_test_split, sklearn DictVectorizer,
pandas read_table and idxmax) are modelled by Lean functions following the
documented behaviour of those libraries at the concrete call sites of the
script; each such model carries a doc comment saying so.  Python name
resolution, which two of the claims are about, is modelled by explicit
lists of the names bound at module scope.
-/

set_option linter.unusedVariables false

namespace Cora

/-! ## Names bound at module scope -/

/-- Names bound at module top level by the import statements of the script
(lines 41 to 52). -/
def moduleImports : List String :=
  ["os", "argparse", "pickle", "np", "pd", "nx", "keras",
   "optimizers", "losses", "layers", "metrics",
   "preprocessing", "feature_extraction", "model_selection",
   "StellarGraph", "GraphSAGE", "MeanAggregator", "GraphSAGENodeMapper"]

/-- Names bound at module top level by the two function definitions of the
script. -/
def moduleDefs : List String := ["train", "test"]

/-- Every name bound at module scope before the main block runs: the
imports plus the two function definitions.  In particular the name G is
not among them. -/
def moduleScope : List String := moduleImports ++ moduleDefs

/-- Names assigned inside the main block, in order, before the
checkpoint-vs-train fork (lines 203 to 277): the parser, the parsed
arguments, the graph location, the edge list, the feature and column name
lists, and the node table. -/
def mainAssigned : List String :=
  ["parser", "args", "cmdline_args", "graph_loc", "edgelist",
   "feature_names", "column_names", "node_data"]

/-- Every name visible at the fork at line 279. -/
def mainScope : List String := moduleScope ++ mainAssigned

/-- Python runtime errors that the embedded fragments can raise. -/
inductive PyErr where
  | nameError (n : String)
  | valueError (m : String)
  deriving DecidableEq

/-! ## Data loading (main block, lines 266 to 277) -/

/-- Column names for cora.cites as passed to read_table at line 269. -/
def cites_names : List String := ["source", "target"]

/-- Feature column names built at line 273: w_0 through w_1432. -/
def feature_names : List String :=
  (List.range 1433).map (fun ii => "w_" ++ toString ii)

/-- Column names for cora.content built at line 274: the 1433 feature
columns followed by the subject label column. -/
def column_names : List String := feature_names ++ ["subject"]

/-- Errors raised by the loader. -/
inductive LoadErr where
  | fileMissing
  | shapeMismatch
  deriving DecidableEq

/-- A file system maps a path to the rows of fields of the file stored
there, or to none when no file exists at that path. -/
def FileSys : Type := String → Option (List (List String))

/-- Model of os.path.join as used at lines 269 and 276 with a directory
and a bare file name. -/
def pathJoin (d f : String) : String := d ++ "/" ++ f

/-- Model of pandas read_table with header None and an explicit list of
column names, as invoked at lines 268 and 275.  Following the spec, a
missing file raises an input error and a row whose field count differs
from the expected column count raises a shape error; otherwise the rows
are returned as the table. -/
def read_table (fs : FileSys) (path : String) (names : List String) :
    Except LoadErr (List (List String)) :=
  match fs path with
  | none => .error .fileMissing
  | some rows =>
      if rows.all (fun r => r.length == names.length) then .ok rows
      else .error .shapeMismatch

/-- The two paths the loader reads, in order. -/
def filesRead (graph_loc : String) : List String :=
  [pathJoin graph_loc ("cora.cites"), pathJoin graph_loc ("cora.content")]

/-- The loading stage of the main block: read cora.cites with the two edge
columns, then cora.content with the 1434 node columns. -/
def loadGraphData (fs : FileSys) (graph_loc : String) :
    Except LoadErr (List (List String) × List (List String)) :=
  match read_table fs (pathJoin graph_loc ("cora.cites")) cites_names with
  | .error e => .error e
  | .ok edgelist =>
      match read_table fs (pathJoin graph_loc ("cora.content")) column_names with
      | .error e => .error e
      | .ok node_data => .ok (edgelist, node_data)

/-! ## Train, validation and test split (train, lines 100 to 108) -/

/-- Model of sklearn.model_selection.train_test_split as invoked at the
second call site (line 107): an integer train size t, no test size and no
stratify argument.  The input list stands for the node ids after the
random shuffle, so the function is deterministic here: it returns the
first t elements and the remaining ones.  sklearn raises a ValueError
unless 0 < t and t is strictly smaller than the number of samples; that
failure is modelled by none. -/
def train_test_split {α : Type} (xs : List α) (train_size : Nat) :
    Option (List α × List α) :=
  if 0 < train_size ∧ train_size < xs.length then
    some (xs.take train_size, xs.drop train_size)
  else none

/-- Model of sklearn.model_selection.train_test_split as invoked at the
first call site (line 102), where stratify is the target array.  Beyond
the size check of the plain variant, the stratified splitter raises a
ValueError when the target array length differs from the sample count,
when the least populated label class has fewer than two members, or when
the number of distinct label classes exceeds the train size or the
remaining test size.  On success the shuffled, stratified reordering is
abstracted into the order of the input list, so the result is again the
first t elements and the remaining ones. -/
def train_test_split_stratified {α : Type} (xs : List α)
    (stratify : List String) (train_size : Nat) :
    Option (List α × List α) :=
  if stratify.length = xs.length ∧ 0 < train_size ∧ train_size < xs.length ∧
      (∀ l ∈ stratify.dedup, 2 ≤ stratify.count l) ∧
      stratify.dedup.length ≤ train_size ∧
      stratify.dedup.length ≤ xs.length - train_size then
    some (xs.take train_size, xs.drop train_size)
  else none

/-- The split pipeline of train: first split off 140 train nodes with
stratification by the target labels (line 102), then split the remainder
into 500 validation nodes and the rest as test nodes, without
stratification (line 107).  The sizes 140 and 500 are literal constants of
the script and no configuration flag reaches them. -/
def trainValTestSplit {α : Type} (node_ids : List α)
    (node_targets : List String) :
    Option (List α × List α × List α) :=
  match train_test_split_stratified node_ids node_targets 140 with
  | none => none
  | some (train_nodes, rest) =>
      match train_test_split rest 500 with
      | none => none
      | some (val_nodes, test_nodes) => some (train_nodes, val_nodes, test_nodes)

/-- Statement of claim C1 at a given node id list with its target labels:
the pipeline succeeds and the three parts have sizes min 140 available,
then min 500 of the remainder, then the rest. -/
def c1SplitClaim (node_ids : List Nat) (node_targets : List String) : Prop :=
  ∃ tr va te, trainValTestSplit node_ids node_targets = some (tr, va, te) ∧
    tr.length = min 140 node_ids.length ∧
    va.length = min 500 (node_ids.length - 140) ∧
    te.length = node_ids.length - tr.length - va.length

/-! ## Label encoding (train, lines 79 to 83 and 157 to 168) -/

/-- Feature name used by sklearn DictVectorizer for a string-valued field:
the field name, an equals sign, and the value. -/
def featName (target_name label : String) : String :=
  target_name ++ "=" ++ label

/-- Feature name with the subject field, as hard-coded in the accuracy
computation at line 163. -/
def featLabel (label : String) : String := featName ("subject") label

/-- Model of the vocabulary built by DictVectorizer fit on the records of
the target column (line 81): one feature name per distinct label, sorted
alphabetically as the library sorts its feature names. -/
def vocabFit (target_name : String) (labels : List String) : List String :=
  List.insertionSort (fun a b => a ≤ b) ((labels.map (featName target_name)).dedup)

/-- Model of the DictVectorizer transform of one record: a row with a one
in the column of the feature name of the label and zeros elsewhere. -/
def dvTransform (target_name : String) (labels : List String) (l : String) :
    List Nat :=
  (vocabFit target_name labels).map
    (fun f => if f = featName target_name l then 1 else 0)

/-- Model of pandas idxmax over one row: the index of the first occurrence
of the maximal entry. -/
def idxmax (v : List Nat) : Nat := v.indexOf (v.foldr max 0)

/-- Decoding a prediction row as train does at line 165: take the column
name of the maximal entry of the inverse-transformed row. -/
def decodeColumn (target_name : String) (labels : List String) (v : List Nat) :
    String :=
  (vocabFit target_name labels).getD (idxmax v) ""

/-! ## Accuracy (train, lines 161 to 168) -/

/-- Python booleans count as one and zero under numeric aggregation. -/
def pyBoolToNum (b : Bool) : ℚ := if b then 1 else 0

/-- Model of numpy mean over a list of numbers. -/
def npMean (l : List ℚ) : ℚ := l.sum / (l.length : ℚ)

/-- The indicator list built at lines 162 to 167: zip the ground-truth
subject column with the decoded prediction column names and compare the
subject-prefixed ground truth with the predicted column name. -/
def matchIndicators (subjects preds : List String) : List Bool :=
  (subjects.zip preds).map (fun gp => featLabel gp.1 == gp.2)

/-- The all-node accuracy printed at line 169: the numpy mean of the
indicator list. -/
def allNodeAccuracy (subjects preds : List String) : ℚ :=
  npMean ((matchIndicators subjects preds).map pyBoolToNum)

/-- Formalisation of the wording of claim C7: the fraction of nodes, in
table order, whose subject-prefixed ground-truth label equals the decoded
prediction column name. -/
def claimAccuracy (subjects preds : List String) : ℚ :=
  (((subjects.zip preds).countP (fun gp => featLabel gp.1 == gp.2) : ℚ)) /
    (subjects.length : ℚ)

/-! ## Artifact names (train, lines 173 to 184) -/

/-- Model of the Python join of string pieces with an underscore. -/
def joinUnderscore (parts : List String) : String :=
  String.intercalate ("_") parts

/-- The suffix built at lines 174 to 179.  The two numeric hyperparameters
dropout and learning rate appear through their Python string forms, which
are passed here as the strings Python prints for them. -/
def save_str (num_samples layer_size : List Nat)
    (dropout learning_rate : String) : String :=
  "_n" ++ joinUnderscore (num_samples.map toString) ++
  "_l" ++ joinUnderscore (layer_size.map toString) ++
  "_d" ++ dropout ++ "_r" ++ learning_rate

/-- Name of the model file written at line 180. -/
def modelFileName (ns ls : List Nat) (d r : String) : String :=
  "epgm_example_model" ++ save_str ns ls d r ++ ".h5"

/-- Name of the encoder pickle file written at line 183. -/
def encodingFileName (ns ls : List Nat) (d r : String) : String :=
  "epgm_example_encoding" ++ save_str ns ls d r ++ ".pkl"

/-- The artifacts train writes, in order: the model file then the encoder
pickle. -/
def trainArtifacts (ns ls : List Nat) (d r : String) : List String :=
  [modelFileName ns ls d r, encodingFileName ns ls d r]

/-! ## The stub test function (lines 187 to 199) -/

/-- Values of the embedded Python fragment; the stub only ever produces
the none value. -/
inductive PyVal where
  | noneVal
  | strVal (s : String)
  deriving DecidableEq

/-- Observable side effects a statement can have. -/
inductive Effect where
  | printed (s : String)
  | wroteFile (name : String)
  deriving DecidableEq

/-- Statements of the embedded fragment.  The body of the stub consists of
a single pass statement. -/
inductive PyStmt where
  | passStmt
  | printIt (s : String)
  | writeIt (name : String)
  | assignVar (n : String)

/-- Execution of one statement over the list of bound names, returning the
new state and the effects emitted. -/
def execStmt : PyStmt → List String → List String × List Effect
  | .passStmt, st => (st, [])
  | .printIt s, st => (st, [.printed s])
  | .writeIt n, st => (st, [.wroteFile n])
  | .assignVar n, st => (n :: st, [])

/-- Execution of a statement list, threading the state and concatenating
the effects. -/
def execBody : List PyStmt → List String → List String × List Effect
  | [], st => (st, [])
  | s :: rest, st =>
      let p := execStmt s st
      let q := execBody rest p.1
      (q.1, p.2 ++ q.2)

/-- Body of the test function: the single pass statement at line 199. -/
def testBody : List PyStmt := [PyStmt.passStmt]

/-- The test entry point (line 187): run its body over the current state
and return the implicit Python none value, since the body has no return
statement. -/
def test (G : PyVal) (model_file : String) (batch_size : Int)
    (st : List String) : (List String × List Effect) × PyVal :=
  (execBody testBody st, PyVal.noneVal)

/-! ## Command-line interface (main block, lines 202 to 264) -/

/-- Short and long names of the flags registered on the argument parser,
in registration order. -/
def parserFlags : List (String × String) :=
  [("-c", "--checkpoint"), ("-n", "--batch_size"), ("-e", "--epochs"),
   ("-d", "--dropout"), ("-r", "--learningrate"),
   ("-s", "--neighbour_samples"), ("-l", "--layer_size"),
   ("-g", "--graph"), ("-t", "--target")]

/-- The parsed argument record.  Integer flags are Lean integers, float
flags are rationals holding the value of the decimal literal of the
default, list flags are integer lists. -/
structure Args where
  checkpoint : Option String
  batch_size : Int
  epochs : Int
  dropout : ℚ
  learningrate : ℚ
  neighbour_samples : List Int
  layer_size : List Int
  graph : Option String
  target : String
  deriving DecidableEq

/-- Which flags a given command line provides: none in a field means the
flag was omitted. -/
structure CliInput where
  checkpoint : Option String
  batch_size : Option Int
  epochs : Option Int
  dropout : Option ℚ
  learningrate : Option ℚ
  neighbour_samples : Option (List Int)
  layer_size : Option (List Int)
  graph : Option String
  target : Option String

/-- The command line providing no flag at all. -/
def emptyCli : CliInput := ⟨none, none, none, none, none, none, none, none, none⟩

/-- Model of parse_known_args at line 264: every omitted flag takes the
default registered for it at lines 206 to 263. -/
def parse_known_args (c : CliInput) : Args where
  checkpoint := c.checkpoint
  batch_size := c.batch_size.getD 20
  epochs := c.epochs.getD 10
  dropout := c.dropout.getD 0
  learningrate := c.learningrate.getD (5 / 1000)
  neighbour_samples := c.neighbour_samples.getD [20, 10]
  layer_size := c.layer_size.getD [20, 20]
  graph := c.graph
  target := c.target.getD ("subject")

/-- The argument record produced by an empty command line. -/
def defaultArgs : Args :=
  ⟨none, 20, 10, 0, 5 / 1000, [20, 10], [20, 20], none, "subject"⟩

/-! ## The fork at the bottom of the main block (lines 279 to 291) -/

/-- Actions the fork can take. -/
inductive MainAction where
  | callTrain
  | callTest (checkpoint : String)
  deriving DecidableEq

/-- The fork at line 279 over an explicit scope: without a checkpoint it
calls train; with one it evaluates the expression test of G, which first
resolves the name G in the enclosing scope and raises a name error when
that name is unbound. -/
def mainBranch (scope : List String) (checkpoint : Option String) :
    Except PyErr MainAction :=
  match checkpoint with
  | none => .ok .callTrain
  | some c => if ("G") ∈ scope then .ok (.callTest c) else .error (.nameError ("G"))

/-- The argument tuple the fork passes to train at lines 280 to 289.  The
call is positional and stops at dropout, so target_name keeps its default
value subject (line 64); args.target is never passed. -/
structure TrainCall where
  layer_size : List Int
  num_samples : List Int
  batch_size : Int
  num_epochs : Int
  learning_rate : ℚ
  dropout : ℚ
  target_name : String
  deriving DecidableEq

/-- The train invocation built from the parsed arguments, exactly the
eight positional arguments of lines 280 to 289 plus the defaulted
target_name. -/
def trainCallOf (a : Args) : TrainCall :=
  ⟨a.layer_size, a.neighbour_samples, a.batch_size, a.epochs,
   a.learningrate, a.dropout, "subject"⟩

/-- Replace only the target field of the parsed arguments. -/
def setTarget (a : Args) (t : String) : Args := { a with target := t }

/-- The observable outcome of the fork as a function of the parsed
arguments: the train invocation on the train branch, the name error on
the other branch (the name G is unbound at module scope, see mainScope). -/
def mainDispatch (a : Args) : Except PyErr TrainCall :=
  match a.checkpoint with
  | none => .ok (trainCallOf a)
  | some _ => .error (.nameError ("G"))

/-! ## The global read of feature_names inside train (lines 85 to 88) -/

/-- Stages of the body of train, in source order.  The read of the global
feature_names happens at line 87, after fitting the target encoding at
lines 80 to 83 and before the graph is built at lines 91 to 98. -/
inductive TrainStep where
  | encodeTargets
  | extractFeatures
  | buildGraph
  | splitNodes
  | fitModel
  | saveArtifacts
  deriving DecidableEq

/-- Trace of train as a function of the names bound at module scope: when
feature_names is bound, all stages run; when it is not, the name lookup at
line 87 raises a name error right after the target encoding stage, before
any graph is built. -/
def trainTrace (globals : List String) : List TrainStep × Option PyErr :=
  if ("feature_names") ∈ globals then
    ([.encodeTargets, .extractFeatures, .buildGraph, .splitNodes,
      .fitModel, .saveArtifacts], none)
  else
    ([.encodeTargets], some (.nameError ("feature_names")))

end Cora

namespace Cora

/-! ## Theorems -/

/-- C2: for every non-None checkpoint argument, the fork at line 279 takes
the evaluate-only branch and raises a name error for G, because the name G
is not bound in the scope visible at the fork. -/
theorem c2_checkpoint_branch_raises (s : String) :
    mainBranch mainScope (some s) = .error (.nameError ("G")) := by
  simp only [mainBranch]
  rw [if_neg (by decide)]

/-- C3: train writes exactly two artifacts, the model file and the encoder
pickle, whose names are the fixed prefixes followed by the hyperparameter
suffix; on the example hyperparameters the suffix is the literal
_n5_5_l8_8_d0.1_r0.01. -/
theorem c3_artifact_names :
    (∀ (ns ls : List Nat) (d r : String),
      trainArtifacts ns ls d r =
        ["epgm_example_model" ++ save_str ns ls d r ++ ".h5",
         "epgm_example_encoding" ++ save_str ns ls d r ++ ".pkl"] ∧
      (trainArtifacts ns ls d r).length = 2) ∧
    save_str [5, 5] [8, 8] ("0.1") ("0.01") = "_n5_5_l8_8_d0.1_r0.01" ∧
    modelFileName [5, 5] [8, 8] ("0.1") ("0.01") =
      "epgm_example_model_n5_5_l8_8_d0.1_r0.01.h5" ∧
    encodingFileName [5, 5] [8, 8] ("0.1") ("0.01") =
      "epgm_example_encoding_n5_5_l8_8_d0.1_r0.01.pkl" := by
  refine ⟨fun ns ls d r => ⟨rfl, rfl⟩, ?_, ?_, ?_⟩ <;> rfl

/-- C5: the test entry point is a stub: for every argument triple and
every starting state it emits no effect, leaves the state unchanged, and
returns the Python none value. -/
theorem c5_test_is_stub (G : PyVal) (mf : String) (bs : Int)
    (st : List String) :
    test G mf bs st = ((st, []), PyVal.noneVal) := rfl

/-- C9: the parsed target flag has no effect: the outcome of the fork and
the argument tuple passed to train are unchanged when only the target
field differs, and the target_name reaching train is always subject. -/
theorem c9_target_flag_no_effect (a : Args) (t : String) :
    mainDispatch (setTarget a t) = mainDispatch a ∧
    trainCallOf (setTarget a t) = trainCallOf a ∧
    (trainCallOf a).target_name = "subject" :=
  ⟨rfl, rfl, rfl⟩

/-- C10: when the module name feature_names is unbound among the globals,
train raises a name error right after the target-encoding stage and never
reaches the graph-building stage; and feature_names is indeed not bound at
module scope, only inside the main block. -/
theorem c10_feature_names_global (g : List String)
    (h : ("feature_names") ∉ g) :
    trainTrace g =
      ([.encodeTargets], some (.nameError ("feature_names"))) ∧
    TrainStep.buildGraph ∉ (trainTrace g).1 ∧
    ("feature_names") ∉ moduleScope := by
  have e : trainTrace g =
      ([.encodeTargets], some (.nameError ("feature_names"))) := by
    simp only [trainTrace]
    rw [if_neg h]
  refine ⟨e, ?_, by decide⟩
  rw [e]
  decide

/-- Witness for C10 at the concrete module scope of the script. -/
theorem c10_witness :
    trainTrace moduleScope =
      ([.encodeTargets], some (.nameError ("feature_names"))) :=
  (c10_feature_names_global moduleScope (by decide)).1

/-- C6: the loader reads exactly the two expected paths; the edge file is
parsed with the two columns source and target; the node file is parsed
with 1433 feature columns named w_0 through w_1432 followed by a subject
column; a missing file yields the file-missing error and a row with the
wrong field count yields the shape error. -/
theorem c6_loader_schema :
    cites_names = ["source", "target"] ∧
    feature_names.length = 1433 ∧
    column_names.length = 1434 ∧
    (∀ i, i < 1433 → feature_names[i]? = some ("w_" ++ toString i)) ∧
    column_names.getLast? = some ("subject") ∧
    (∀ g, filesRead g = [g ++ "/cora.cites", g ++ "/cora.content"]) ∧
    (∀ (fs : FileSys) (g : String),
      fs (pathJoin g ("cora.cites")) = none →
      loadGraphData fs g = .error .fileMissing) ∧
    (∀ (fs : FileSys) (p : String) (rows : List (List String))
      (r : List String),
      fs p = some rows → r ∈ rows → r.length ≠ column_names.length →
      read_table fs p column_names = .error .shapeMismatch) := by
  refine ⟨rfl, by simp [feature_names], by simp [column_names, feature_names],
    ?_, ?_, ?_, ?_, ?_⟩
  · intro i hi
    simp [feature_names, List.getElem?_range hi]
  · simp [column_names, List.getLast?_concat]
  · intro g
    simp only [filesRead, pathJoin, String.append_assoc]
    rfl
  · intro fs g h
    simp [loadGraphData, read_table, h]
  · intro fs p rows r h1 h2 h3
    have hall : rows.all (fun row => row.length == column_names.length) = false := by
      cases hb : rows.all (fun row => row.length == column_names.length)
      · rfl
      · exact absurd (by simpa using List.all_eq_true.mp hb r h2) h3
    simp [read_table, h1, hall]

/-- Witness for C6: a file system with no files yields the file-missing
error, a node file with a one-field row yields the shape error, and the
feature column at index 1432 is w_1432. -/
theorem c6_witness :
    loadGraphData (fun _ => none) ("g") = .error .fileMissing ∧
    read_table (fun _ => some [["x"]]) ("p") column_names =
      .error .shapeMismatch ∧
    feature_names[1432]? = some ("w_" ++ toString 1432) :=
  ⟨c6_loader_schema.2.2.2.2.2.2.1 (fun _ => none) ("g") rfl,
   c6_loader_schema.2.2.2.2.2.2.2 (fun _ => some [["x"]]) ("p") [["x"]] ["x"]
     rfl (by simp) (by simp [column_names, feature_names]),
   c6_loader_schema.2.2.2.1 1432 (by norm_num)⟩

/-- Sum of the numeric indicator list equals the count of matches. -/
theorem indicator_sum_count (l : List (String × String)) :
    ((l.map (fun gp => featLabel gp.1 == gp.2)).map pyBoolToNum).sum =
      (l.countP (fun gp => featLabel gp.1 == gp.2) : ℚ) := by
  induction l with
  | nil => simp
  | cons a t ih =>
      simp only [List.map_cons, List.sum_cons, List.countP_cons]
      rw [ih]
      cases hb : (featLabel a.1 == a.2)
      · simp [pyBoolToNum]
      · simp [pyBoolToNum, add_comm]

/-- C7: the printed all-node accuracy equals the fraction of nodes, taken
in table order, whose subject-prefixed ground-truth label equals the
decoded prediction column name. -/
theorem c7_accuracy_is_mean_indicator (subjects preds : List String)
    (h : subjects.length = preds.length) :
    allNodeAccuracy subjects preds = claimAccuracy subjects preds := by
  unfold allNodeAccuracy npMean claimAccuracy matchIndicators
  rw [indicator_sum_count]
  congr 1
  simp [List.length_zip, h]

/-- Witness for C7 on a two-node table with one correct prediction. -/
theorem c7_witness :
    allNodeAccuracy ["A", "B"] ["subject=A", "x"] =
      claimAccuracy ["A", "B"] ["subject=A", "x"] :=
  c7_accuracy_is_mean_indicator ["A", "B"] ["subject=A", "x"] rfl

/-- Bound on the running maximum of a list of entries that are at most
one. -/
theorem foldr_max_le_one (l : List ℕ) (h : ∀ x ∈ l, x ≤ 1) :
    l.foldr max 0 ≤ 1 := by
  induction l with
  | nil => simp
  | cons a t ih =>
      simp only [List.foldr_cons]
      exact max_le (h a (by simp)) (ih fun x hx => h x (by simp [hx]))

/-- The maximum of a one-hot row over a vocabulary containing the target
feature is one. -/
theorem foldr_max_onehot (vs : List String) (t : String) (ht : t ∈ vs) :
    (vs.map (fun f => if f = t then (1 : ℕ) else 0)).foldr max 0 = 1 := by
  induction vs with
  | nil => cases ht
  | cons a rest ih =>
      by_cases hat : a = t
      · simp only [List.map_cons, List.foldr_cons, if_pos hat]
        refine max_eq_left (foldr_max_le_one _ ?_)
        intro x hx
        obtain ⟨f, -, rfl⟩ := List.mem_map.mp hx
        by_cases hft : f = t <;> simp [hft]
      · rcases List.mem_cons.mp ht with h | h
        · exact absurd h.symm hat
        · simp only [List.map_cons, List.foldr_cons, if_neg hat, ih h]
          simp

/-- The first index holding a one in a one-hot row is the index of the
target feature in the vocabulary. -/
theorem indexOf_onehot (vs : List String) (t : String) (ht : t ∈ vs) :
    (vs.map (fun f => if f = t then (1 : ℕ) else 0)).indexOf 1 =
      vs.indexOf t := by
  induction vs with
  | nil => cases ht
  | cons a rest ih =>
      by_cases hat : a = t
      · simp only [List.map_cons, if_pos hat]
        rw [List.indexOf_cons_self, List.indexOf_cons_eq _ hat]
      · rcases List.mem_cons.mp ht with h | h
        · exact absurd h.symm hat
        · simp only [List.map_cons, if_neg hat]
          rw [List.indexOf_cons_ne _ (by norm_num),
            List.indexOf_cons_ne _ hat, ih h]

/-- C4: for every label in the fitted label set, one-hot encoding the
label and then decoding the resulting row through the inverse transform
and idxmax yields the subject-prefixed feature name of that label, and
that feature name determines the original label string uniquely. -/
theorem c4_label_roundtrip (labels : List String) (l : String)
    (hl : l ∈ labels) :
    decodeColumn ("subject") labels (dvTransform ("subject") labels l) =
      featLabel l ∧
    ∀ l1 l2 : String, featLabel l1 = featLabel l2 → l1 = l2 := by
  constructor
  · have hmem : featName ("subject") l ∈ vocabFit ("subject") labels := by
      simp only [vocabFit, List.mem_insertionSort, List.mem_dedup,
        List.mem_map]
      exact ⟨l, hl, rfl⟩
    have hlt : (vocabFit ("subject") labels).indexOf (featName ("subject") l) <
        (vocabFit ("subject") labels).length :=
      List.indexOf_lt_length.mpr hmem
    unfold decodeColumn dvTransform idxmax
    rw [foldr_max_onehot _ _ hmem, indexOf_onehot _ _ hmem,
      List.getD_eq_getElem?_getD, List.getElem?_eq_getElem hlt]
    simp only [Option.getD_some]
    rw [List.getElem_indexOf hlt]
    rfl
  · intro l1 l2 h
    have h2 : ("subject").data ++ (("=").data ++ l1.data) =
        ("subject").data ++ (("=").data ++ l2.data) := by
      simpa only [featLabel, featName, String.data_append,
        List.append_assoc] using congrArg String.data h
    exact String.ext (List.append_cancel_left (List.append_cancel_left h2))

/-- Witness for C4 on a two-label set. -/
theorem c4_witness :
    decodeColumn ("subject") ["Neural_Networks", "Rule_Learning"]
        (dvTransform ("subject") ["Neural_Networks", "Rule_Learning"]
          ("Rule_Learning")) =
      featLabel ("Rule_Learning") :=
  (c4_label_roundtrip ["Neural_Networks", "Rule_Learning"]
    ("Rule_Learning") (by simp)).1

/-- C1 counterexample: on a three-node table whose nodes all carry the
same label, the split pipeline fails with a ValueError, modelled as none,
instead of producing a train set of size min 140 3 as the claim states. -/
theorem c1_counterexample : ¬ c1SplitClaim [1, 2, 3] ["a", "a", "a"] := by
  intro hc
  obtain ⟨tr, va, te, h, -⟩ := hc
  have e : trainValTestSplit [1, 2, 3] ["a", "a", "a"] =
      (none : Option (List ℕ × List ℕ × List ℕ)) := by decide
  rw [e] at h
  exact Option.noConfusion h

/-- C1 as amended: on every duplicate-free node id list with more than 640
entries whose target column carries one label per node, in which every
label class has at least two members and at most 140 distinct label
classes occur, both split calls succeed and the pipeline returns a train
set of exactly 140 ids, a validation set of exactly 500 ids and the
remaining ids as the test set; the three sets are pairwise disjoint and
together exhaust the input ids.  Outside these conditions the library
raises a ValueError instead of shrinking the sizes. -/
theorem c1_split_sizes {α : Type} (ids : List α) (targets : List String)
    (hnd : ids.Nodup) (hlen : 640 < ids.length)
    (htlen : targets.length = ids.length)
    (hmin2 : ∀ l ∈ targets.dedup, 2 ≤ targets.count l)
    (hcls : targets.dedup.length ≤ 140) :
    ∃ tr va te, trainValTestSplit ids targets = some (tr, va, te) ∧
      tr.length = 140 ∧ va.length = 500 ∧ te.length = ids.length - 640 ∧
      tr.Disjoint va ∧ tr.Disjoint te ∧ va.Disjoint te ∧
      ∀ x, x ∈ ids ↔ x ∈ tr ∨ x ∈ va ∨ x ∈ te := by
  have hdl : (ids.drop 140).length = ids.length - 140 := List.length_drop _ _
  have h1 : targets.length = ids.length ∧ 0 < 140 ∧ 140 < ids.length ∧
      (∀ l ∈ targets.dedup, 2 ≤ targets.count l) ∧
      targets.dedup.length ≤ 140 ∧
      targets.dedup.length ≤ ids.length - 140 :=
    ⟨htlen, by norm_num, by omega, hmin2, hcls, by omega⟩
  have h2 : 0 < 500 ∧ 500 < (ids.drop 140).length := ⟨by norm_num, by omega⟩
  have hdj : List.Disjoint (ids.take 140) (ids.drop 140) :=
    List.disjoint_take_drop hnd le_rfl
  have hrestnd : (ids.drop 140).Nodup :=
    List.Nodup.sublist (List.drop_sublist _ _) hnd
  have hdj2 : List.Disjoint ((ids.drop 140).take 500) ((ids.drop 140).drop 500) :=
    List.disjoint_take_drop hrestnd le_rfl
  refine ⟨ids.take 140, (ids.drop 140).take 500, (ids.drop 140).drop 500,
    ?_, ?_, ?_, ?_, ?_, ?_, hdj2, ?_⟩
  · simp only [trainValTestSplit, train_test_split_stratified,
      train_test_split, if_pos h1, if_pos h2]
  · simp only [List.length_take]
    omega
  · simp only [List.length_take, List.length_drop]
    omega
  · simp only [List.length_drop]
    omega
  · exact fun a ha hb => hdj ha (List.take_subset _ _ hb)
  · exact fun a ha hb => hdj ha (List.drop_subset _ _ hb)
  · intro x
    conv_lhs =>
      rw [show ids = ids.take 140 ++
            ((ids.drop 140).take 500 ++ (ids.drop 140).drop 500) by
          rw [List.take_append_drop 500 (ids.drop 140),
            List.take_append_drop 140 ids]]
    simp [List.mem_append, or_assoc]

/-- Witness for C1 as amended, on the node id list 0 through 640 with a
single label class of 641 members. -/
theorem c1_witness :
    ∃ tr va te,
      trainValTestSplit (List.range 641) (List.replicate 641 ("a")) =
        some (tr, va, te) ∧
      tr.length = 140 ∧ va.length = 500 ∧
      te.length = (List.range 641).length - 640 ∧
      tr.Disjoint va ∧ tr.Disjoint te ∧ va.Disjoint te ∧
      ∀ x, x ∈ List.range 641 ↔ x ∈ tr ∨ x ∈ va ∨ x ∈ te :=
  c1_split_sizes (List.range 641) (List.replicate 641 ("a"))
    (List.nodup_range 641)
    (by simp)
    (by rw [List.length_replicate, List.length_range])
    (by
      rw [List.replicate_dedup (by norm_num)]
      intro l hl
      have hla : l = "a" := by simpa using hl
      subst hla
      norm_num [List.count_replicate_self])
    (by
      rw [List.replicate_dedup (by norm_num)]
      norm_num)

/-- C8: the parser registers exactly the nine flags of the claim, an empty
command line yields the default argument record, and each omitted flag
takes its stated default. -/
theorem c8_cli_flags_defaults :
    parserFlags =
      [("-c", "--checkpoint"), ("-n", "--batch_size"), ("-e", "--epochs"),
       ("-d", "--dropout"), ("-r", "--learningrate"),
       ("-s", "--neighbour_samples"), ("-l", "--layer_size"),
       ("-g", "--graph"), ("-t", "--target")] ∧
    parse_known_args emptyCli = defaultArgs ∧
    ∀ c : CliInput,
      (c.checkpoint = none → (parse_known_args c).checkpoint = none) ∧
      (c.batch_size = none → (parse_known_args c).batch_size = 20) ∧
      (c.epochs = none → (parse_known_args c).epochs = 10) ∧
      (c.dropout = none → (parse_known_args c).dropout = 0) ∧
      (c.learningrate = none → (parse_known_args c).learningrate = 5 / 1000) ∧
      (c.neighbour_samples = none →
        (parse_known_args c).neighbour_samples = [20, 10]) ∧
      (c.layer_size = none → (parse_known_args c).layer_size = [20, 20]) ∧
      (c.graph = none → (parse_known_args c).graph = none) ∧
      (c.target = none → (parse_known_args c).target = "subject") := by
  refine ⟨rfl, rfl, fun c => ?_⟩
  refine ⟨fun h => ?_, fun h => ?_, fun h => ?_, fun h => ?_, fun h => ?_,
    fun h => ?_, fun h => ?_, fun h => ?_, fun h => ?_⟩ <;>
    simp [parse_known_args, h]

/-- Witness for C8 on the empty command line. -/
theorem c8_witness :
    (parse_known_args emptyCli).checkpoint = none ∧
    (parse_known_args emptyCli).batch_size = 20 ∧
    (parse_known_args emptyCli).epochs = 10 ∧
    (parse_known_args emptyCli).dropout = 0 ∧
    (parse_known_args emptyCli).learningrate = 5 / 1000 ∧
    (parse_known_args emptyCli).neighbour_samples = [20, 10] ∧
    (parse_known_args emptyCli).layer_size = [20, 20] ∧
    (parse_known_args emptyCli).graph = none ∧
    (parse_known_args emptyCli).target = "subject" :=
  ⟨(c8_cli_flags_defaults.2.2 emptyCli).1 rfl,
   (c8_cli_flags_defaults.2.2 emptyCli).2.1 rfl,
   (c8_cli_flags_defaults.2.2 emptyCli).2.2.1 rfl,
   (c8_cli_flags_defaults.2.2 emptyCli).2.2.2.1 rfl,
   (c8_cli_flags_defaults.2.2 emptyCli).2.2.2.2.1 rfl,
   (c8_cli_flags_defaults.2.2 emptyCli).2.2.2.2.2.1 rfl,
   (c8_cli_flags_defaults.2.2 emptyCli).2.2.2.2.2.2.1 rfl,
   (c8_cli_flags_defaults.2.2 emptyCli).2.2.2.2.2.2.2.1 rfl,
   (c8_cli_flags_defaults.2.2 emptyCli).2.2.2.2.2.2.2.2 rfl⟩

end Cora
